import Mathlib

/-!
Verification of the Ollama relay handler (`src/app/api/ollama/route.ts`,
exported function `POST`) against its natural-language specification.

The handler is shallowly embedded: JSON values become the inductive `Json`
(with an extra `undefined` constructor for the JavaScript `undefined` produced
by property access), JavaScript truthiness becomes `Json.truthy`, thrown
exceptions become `Except JsError`, and the handler itself becomes the
pure function `POST`, parameterised by the environment variable, the parsed
inbound body (or its parse failure) and the backend's behaviour for the
single outbound `fetch`.
-/

/-- JavaScript values that can flow through the handler: the JSON values
plus `undefined` (the result of accessing a missing property). -/
inductive Json where
  | null : Json
  | undefined : Json
  | bool : Bool → Json
  | num : Int → Json
  | str : String → Json
  | arr : List Json → Json
  | obj : List (String × Json) → Json

/-- JavaScript truthiness: `null`, `undefined`, `false`, `0` and `""` are
falsy; every other value (including every object and array) is truthy. -/
def Json.truthy : Json → Bool
  | .null => false
  | .undefined => false
  | .bool b => b
  | .num n => n != 0
  | .str s => s != ""
  | .arr _ => true
  | .obj _ => true

/-- `true` exactly on `null` and `undefined`: the values on which property
access (and destructuring) throws. -/
def Json.isNullish : Json → Bool
  | .null => true
  | .undefined => true
  | _ => false

/-- A thrown JavaScript error, reduced to the two fields the handler's
`catch` block inspects: `name` (checked against `'AbortError'`) and
`message` (fed through `err?.message || 'Unknown error'`). -/
structure JsError where
  name : String
  message : String
deriving DecidableEq, Repr

/-- A `TypeError`, as thrown by property access on `null`/`undefined` or by
calling a missing method. -/
def typeError (msg : String) : JsError := ⟨"TypeError", msg⟩

/-- The `AbortError` produced when the 45-second timer fires and aborts the
in-flight `fetch`. -/
def abortError : JsError := ⟨"AbortError", "This operation was aborted"⟩

/-- Property read `v.k` on a value already known not to be `null` or
`undefined`: objects look the key up (first occurrence), every other value
yields `undefined`. -/
def Json.getProp : Json → String → Json
  | .obj kvs, k => ((kvs.find? (fun p => p.1 = k)).map Prod.snd).getD .undefined
  | _, _ => .undefined

/-- Property read `v.k` with JavaScript semantics: throws a `TypeError` when
the receiver is `null` or `undefined`, otherwise as `Json.getProp`. -/
def Json.get : Json → String → Except JsError Json
  | .null, k => .error (typeError ("Cannot read properties of null (reading " ++ k ++ ")"))
  | .undefined, k => .error (typeError ("Cannot read properties of undefined (reading " ++ k ++ ")"))
  | v, k => .ok (v.getProp k)

mutual

/-- String conversion as performed by a template literal (the handler
interpolates the resolved base URL into the outbound URL). Array elements
that are `null` or `undefined` print as the empty string, as in
`Array.prototype.toString`. -/
def Json.jsString : Json → String
  | .null => "null"
  | .undefined => "undefined"
  | .bool b => if b then "true" else "false"
  | .num n => toString n
  | .str s => s
  | .arr xs => String.intercalate "," (jsStringElems xs)
  | .obj _ => "[object Object]"

def jsStringElems : List Json → List String
  | [] => []
  | .null :: xs => "" :: jsStringElems xs
  | .undefined :: xs => "" :: jsStringElems xs
  | x :: xs => x.jsString :: jsStringElems xs

end

/-- The body of `messages.map((msg) => ({ role: msg.role, content: msg.content }))`
element by element, left to right: the callback's property accesses throw on
`null`/`undefined` elements, which aborts the whole map. -/
def mapMessagesList : List Json → Except JsError (List Json)
  | [] => .ok []
  | msg :: rest => do
    let r ← msg.get "role"
    let c ← msg.get "content"
    let tail ← mapMessagesList rest
    pure (Json.obj [("role", r), ("content", c)] :: tail)

/-- `messages.map((msg) => ({ role: msg.role, content: msg.content }))` on
the `messages` value itself: throws a `TypeError` when `messages` is not an
array (no `.map` method, or `null`/`undefined` receiver). -/
def jsMapMessages : Json → Except JsError (List Json)
  | .arr xs => mapMessagesList xs
  | .null => .error (typeError "Cannot read properties of null (reading map)")
  | .undefined => .error (typeError "Cannot read properties of undefined (reading map)")
  | _ => .error (typeError "messages.map is not a function")

/-- The hardcoded fallback backend location. -/
def defaultOllamaUrl : String := "http://localhost:11434"

/-- `baseUrl || process.env.OLLAMA_URL || 'http://localhost:11434'`:
JavaScript `||` takes the first truthy operand, so an empty-string
`baseUrl` or environment value falls through. The environment variable is
`none` when unset (in which case `process.env.OLLAMA_URL` is `undefined`,
falsy). -/
def resolveOllamaUrl (baseUrl : Json) (env : Option String) : Json :=
  if baseUrl.truthy then baseUrl
  else match env with
    | some s => if s != "" then .str s else .str defaultOllamaUrl
    | none => .str defaultOllamaUrl

/-- Text extraction from a 2xx body (`data`), lines 61–68 of the route:
`if (data.message && data.message.content) … else if (data.response) …
else 'No response from Ollama'`. Property access on a `null` body throws. -/
def extractText (data : Json) : Except JsError Json := do
  let m ← data.get "message"
  let picked ←
    if m.truthy then do
      let c ← m.get "content"
      pure (if c.truthy then some c else none)
    else pure (none : Option Json)
  match picked with
  | some c => pure c
  | none => do
    let r ← data.get "response"
    pure (if r.truthy then r else .str "No response from Ollama")

/-- The amended specification's description of text extraction, stated
independently of the code: on a non-null body, if the `message` field is
truthy and its `content` field is truthy, the text is that content value;
otherwise if the `response` field is truthy, the text is that value;
otherwise the text is the fixed placeholder. -/
def specText (data : Json) : Json :=
  let m := data.getProp "message"
  let c := m.getProp "content"
  if m.truthy && c.truthy then c
  else if (data.getProp "response").truthy then data.getProp "response"
  else .str "No response from Ollama"

/-- Model-list extraction, lines 71–82: the body itself if it is an array,
else its `models` field if that is an array, else its `data` field if that
is an array, else empty. `typeof data === 'object'` together with the
truthiness guard restricts the field probing to (non-null) objects. -/
def modelListOf : Json → List Json
  | .arr xs => xs
  | .obj kvs =>
    match Json.getProp (.obj kvs) "models" with
    | .arr xs => xs
    | _ =>
      match Json.getProp (.obj kvs) "data" with
      | .arr xs => xs
      | _ => []
  | _ => []

/-- `model.toLowerCase()`: throws a `TypeError` unless `model` is a string;
on a string it lowercases character by character. -/
def jsToLowerCase : Json → Except JsError String
  | .str s => .ok (.mk (s.data.map Char.toLower))
  | _ => .error (typeError "model.toLowerCase is not a function")

/-- The find predicate of line 85:
`(m) => m && typeof m.name === 'string' && m.name === slug`. -/
def descriptorMatches (slug : String) (m : Json) : Bool :=
  m.truthy && (match m.getProp "name" with
    | .str s => s = slug
    | _ => false)

/-- The body of `modelList.map((m) => m.name)` element by element, left to
right: the property access throws on a `null`/`undefined` entry, which
aborts the whole map. -/
def mapNamesList : List Json → Except JsError (List Json)
  | [] => .ok []
  | m :: rest => do
    let n ← m.get "name"
    let tail ← mapNamesList rest
    pure (n :: tail)

/-- Lines 89–92: `modelList.map((m) => m.name).filter(typeof string).slice(0, 10)`. -/
def availableModelsOf (modelList : List Json) : Except JsError (List String) := do
  let names ← mapNamesList modelList
  pure ((names.filterMap (fun n => match n with
    | .str s => some s
    | _ => none)).take 10)

/-- The delay, in milliseconds, passed to `setTimeout` before the fetch
(line 33: 45 second timeout). -/
def ollamaTimeoutMs : Nat := 45000

/-- The behaviour of the single outbound `fetch` to `<base>/api/chat`:
either the promise rejects with an error (transport failure, or
`AbortError` when the 45-second timer fired), or a response arrives with a
status, a status text, the raw body text (as read by `response.text()`)
and the result of `response.json()` (which throws on an unparseable
body). -/
inductive Backend where
  | reject : JsError → Backend
  | respond : Nat → String → String → Except JsError Json → Backend

/-- `response.ok`: status in the 2xx range (WHATWG fetch: 200–299). -/
def statusOk (status : Nat) : Bool := 200 ≤ status && status ≤ 299

/-- The outbound request the handler issues: the target URL and the
JSON body `{ model, messages, stream: false }` of lines 21–25. -/
structure OutboundReq where
  url : String
  model : Json
  messages : List Json
  stream : Bool

/-- An HTTP response produced by the handler: status code and JSON body. -/
structure HttpResponse where
  status : Nat
  body : Json

/-- Everything observable about one invocation of the handler: the response
returned to the caller, the outbound request (if the `fetch` was reached),
the `setTimeout` delay (if the timer was armed) and whether the timer is
still armed after the `finally` block ran. -/
structure Trace where
  response : HttpResponse
  outbound : Option OutboundReq
  armedDelayMs : Option Nat
  timerArmedAtEnd : Bool

/-- The 502 body of lines 49–54:
`{ error: 'Ollama API error: <status> <statusText>', details, provider, code }`. -/
def backendErrorBody (status : Nat) (statusText : String) (errorText : String) : Json :=
  .obj [("error", .str ("Ollama API error: " ++ toString status ++ " " ++ statusText)),
        ("details", .str errorText),
        ("provider", .str "ollama"),
        ("code", .num status)]

/-- The 504 body of line 100:
`{ error: 'Ollama request timed out', provider: 'ollama', code: 504 }`. -/
def timeoutBody : Json :=
  .obj [("error", .str "Ollama request timed out"), ("provider", .str "ollama"), ("code", .num 504)]

/-- The 500 body of line 104: `{ error: message, provider: 'ollama' }`. -/
def transportErrorBody (message : String) : Json :=
  .obj [("error", .str message), ("provider", .str "ollama")]

/-- The success path after a parseable 2xx body `data` (lines 60–95): text
extraction, model-list extraction, `model.toLowerCase()`, the find, and —
when no descriptor matched and the list is non-empty — the computation of
up to 10 available model names, which the source then assigns to the fetch
`Response` object (`response.availableModels = …`, a dead store) rather
than to the returned body. The returned body is `{ text, raw: data }`. -/
def successResult (model : Json) (data : Json) : Except JsError HttpResponse := do
  let text ← extractText data
  let modelList := modelListOf data
  let slug ← jsToLowerCase model
  let found := modelList.find? (descriptorMatches slug)
  let _ ← if found.isNone && modelList.length > 0
    then availableModelsOf modelList
    else pure []
  pure ⟨200, .obj [("text", text), ("raw", data)]⟩

/-- Lines 44–95, from the arrival of the fetch outcome onwards: a rejected
promise rethrows its error; a non-2xx response short-circuits to the 502
body; a 2xx response has its body parsed (`response.json()` may throw) and
then handed to the success path. -/
def fetchOutcome (model : Json) (backend : Backend) : Except JsError HttpResponse :=
  match backend with
  | .reject e => .error e
  | .respond status statusText errorText bodyJson =>
    if ¬ statusOk status then
      .ok ⟨502, backendErrorBody status statusText errorText⟩
    else
      match bodyJson with
      | .error e => .error e
      | .ok data => successResult model data

/-- The `try` block of the handler. Returns the outcome (a response or a
thrown error), the outbound request if the `fetch` was reached, and whether
`timeoutId` was set by the time the block exited. -/
def tryBlock (env : Option String) (reqBody : Except JsError Json) (backend : Backend) :
    Except JsError HttpResponse × Option OutboundReq × Bool :=
  match reqBody with
  | .error e => (.error e, none, false)
  | .ok body =>
    if body.isNullish then
      (.error (typeError "Cannot destructure request body"), none, false)
    else
      let messages := body.getProp "messages"
      let model := body.getProp "model"
      let baseUrl := body.getProp "baseUrl"
      let ollamaUrl := resolveOllamaUrl baseUrl env
      match jsMapMessages messages with
      | .error e => (.error e, none, false)
      | .ok ollamaMessages =>
        let out : OutboundReq :=
          ⟨ollamaUrl.jsString ++ "/api/chat", model, ollamaMessages, false⟩
        (fetchOutcome model backend, some out, true)

/-- The `catch` block of lines 96–104: an `AbortError` becomes the fixed
504 response; any other error becomes 500 with
`err?.message || 'Unknown error'`. A normal result passes through. -/
def catchWrap : Except JsError HttpResponse → HttpResponse
  | .ok resp => resp
  | .error e =>
    if e.name = "AbortError" then ⟨504, timeoutBody⟩
    else ⟨500, transportErrorBody (if e.message = "" then "Unknown error" else e.message)⟩

/-- The exported handler `POST` of `src/app/api/ollama/route.ts`: the `try`
block, the `catch` block, and the `finally` block of lines 105–110, which
clears the timer whenever `timeoutId` was set. -/
def POST (env : Option String) (reqBody : Except JsError Json) (backend : Backend) : Trace :=
  let (outcome, outbound, timerSet) := tryBlock env reqBody backend
  { response := catchWrap outcome
    outbound := outbound
    armedDelayMs := if timerSet then some ollamaTimeoutMs else none
    timerArmedAtEnd := if timerSet then false else timerSet }

/-! ## Reduction lemmas for the embedding -/

theorem okBind {α β ε : Type} (a : α) (f : α → Except ε β) :
    (Except.ok a : Except ε α) >>= f = f a := rfl

theorem errBind {α β ε : Type} (e : ε) (f : α → Except ε β) :
    (Except.error e : Except ε α) >>= f = .error e := rfl

theorem pureOk {α ε : Type} (a : α) : (pure a : Except ε α) = .ok a := rfl

theorem Json.truthy_not_nullish (v : Json) (h : v.truthy = true) : v.isNullish = false := by
  cases v <;> simp_all [Json.truthy, Json.isNullish]

theorem Json.get_eq_getProp (v : Json) (k : String) (h : v.isNullish = false) :
    v.get k = .ok (v.getProp k) := by
  cases v <;> simp_all [Json.isNullish, Json.get]

theorem Json.get_ok (v : Json) (k : String) (r : Json) (h : v.get k = .ok r) :
    r = v.getProp k ∧ v.isNullish = false := by
  cases v <;> simp_all [Json.get, Json.isNullish]

theorem Json.getProp_cons_eq (k : String) (v : Json) (kvs : List (String × Json)) :
    (Json.obj ((k, v) :: kvs)).getProp k = v := by
  simp [Json.getProp, List.find?]

theorem Json.getProp_cons_ne (k k' : String) (v : Json) (kvs : List (String × Json))
    (h : (k' = k) = False) :
    (Json.obj ((k', v) :: kvs)).getProp k = (Json.obj kvs).getProp k := by
  simp [Json.getProp, List.find?, h]

theorem extractText_eq_spec (data : Json) (h : data.isNullish = false) :
    extractText data = .ok (specText data) := by
  simp only [extractText, specText, Json.get_eq_getProp _ _ h, okBind]
  by_cases hm : (data.getProp "message").truthy
  · simp only [hm, if_true]
    rw [Json.get_eq_getProp _ _ (Json.truthy_not_nullish _ hm)]
    simp only [okBind]
    by_cases hc : ((data.getProp "message").getProp "content").truthy
    · simp [hm, hc, pureOk, okBind]
    · simp [hm, hc, pureOk, okBind]
  · simp [hm, pureOk, okBind]

theorem mapNamesList_ok (l : List Json) (h : ∀ m ∈ l, m.isNullish = false) :
    mapNamesList l = .ok (l.map (fun m => m.getProp "name")) := by
  induction l with
  | nil => simp [mapNamesList]
  | cons m rest ih =>
    simp only [mapNamesList, Json.get_eq_getProp _ _ (h m (by simp)), okBind,
      ih (fun x hx => h x (by simp [hx])), List.map_cons, pureOk]

theorem availableModelsOf_ok (l : List Json) (h : ∀ m ∈ l, m.isNullish = false) :
    availableModelsOf l =
      .ok (((l.map (fun m => m.getProp "name")).filterMap (fun n => match n with
        | .str s => some s
        | _ => none)).take 10) := by
  simp [availableModelsOf, mapNamesList_ok l h, okBind, pureOk]

theorem mapMessagesList_shape (l oms : List Json) (h : mapMessagesList l = .ok oms) :
    oms = l.map (fun m => Json.obj [("role", m.getProp "role"), ("content", m.getProp "content")]) := by
  induction l generalizing oms with
  | nil => simp [mapMessagesList] at h; subst h; simp
  | cons m rest ih =>
    simp only [mapMessagesList] at h
    cases hr : m.get "role" with
    | error e => simp [hr, errBind] at h
    | ok r =>
      simp only [hr, okBind] at h
      cases hc : m.get "content" with
      | error e => simp [hc, errBind] at h
      | ok c =>
        simp only [hc, okBind] at h
        cases ht : mapMessagesList rest with
        | error e => simp [ht, errBind] at h
        | ok tail =>
          simp only [ht, okBind, pureOk, Except.ok.injEq] at h
          obtain ⟨hr', _⟩ := Json.get_ok _ _ _ hr
          obtain ⟨hc', _⟩ := Json.get_ok _ _ _ hc
          simp [h.symm, ih tail ht, hr', hc']

theorem successResult_eq (model data : Json) (s : String)
    (hmodel : model = .str s)
    (hdata : data.isNullish = false)
    (hlist : ∀ m ∈ modelListOf data, m.isNullish = false) :
    successResult model data = .ok ⟨200, .obj [("text", specText data), ("raw", data)]⟩ := by
  subst hmodel
  simp only [successResult, extractText_eq_spec data hdata, okBind, jsToLowerCase]
  split
  · simp [availableModelsOf_ok _ hlist, okBind, pureOk]
  · simp [okBind, pureOk]

theorem successResult_shape (model data : Json) (resp : HttpResponse)
    (h : successResult model data = .ok resp) :
    ∃ text, resp = ⟨200, .obj [("text", text), ("raw", data)]⟩ := by
  simp only [successResult] at h
  cases he : extractText data with
  | error e => simp [he, errBind] at h
  | ok text =>
    simp only [he, okBind] at h
    cases hl : jsToLowerCase model with
    | error e => simp [hl, errBind] at h
    | ok slug =>
      simp only [hl, okBind] at h
      split at h
      · cases ha : availableModelsOf (modelListOf data) with
        | error e => rw [ha] at h; simp [errBind] at h
        | ok v =>
          rw [ha] at h
          simp only [okBind, pureOk, Except.ok.injEq] at h
          exact ⟨text, h.symm⟩
      · simp only [pureOk, okBind, Except.ok.injEq] at h
        exact ⟨text, h.symm⟩

theorem tryBlock_reached (env : Option String) (body : Json) (backend : Backend) (oms : List Json)
    (hbody : body.isNullish = false)
    (hmsgs : jsMapMessages (body.getProp "messages") = .ok oms) :
    tryBlock env (.ok body) backend =
      (fetchOutcome (body.getProp "model") backend,
       some ⟨(resolveOllamaUrl (body.getProp "baseUrl") env).jsString ++ "/api/chat",
             body.getProp "model", oms, false⟩,
       true) := by
  simp [tryBlock, hbody, hmsgs]

theorem POST_reached (env : Option String) (body : Json) (backend : Backend) (oms : List Json)
    (hbody : body.isNullish = false)
    (hmsgs : jsMapMessages (body.getProp "messages") = .ok oms) :
    POST env (.ok body) backend =
      { response := catchWrap (fetchOutcome (body.getProp "model") backend)
        outbound := some ⟨(resolveOllamaUrl (body.getProp "baseUrl") env).jsString ++ "/api/chat",
                          body.getProp "model", oms, false⟩
        armedDelayMs := some ollamaTimeoutMs
        timerArmedAtEnd := false } := by
  simp [POST, tryBlock_reached env body backend oms hbody hmsgs]

theorem POST_response_eq (env : Option String) (reqBody : Except JsError Json) (backend : Backend) :
    (POST env reqBody backend).response = catchWrap (tryBlock env reqBody backend).1 := by
  rcases h : tryBlock env reqBody backend with ⟨o, ob, ts⟩
  simp [POST, h]

theorem POST_outbound_eq (env : Option String) (reqBody : Except JsError Json) (backend : Backend) :
    (POST env reqBody backend).outbound = (tryBlock env reqBody backend).2.1 := by
  rcases h : tryBlock env reqBody backend with ⟨o, ob, ts⟩
  simp [POST, h]

theorem catchWrap_200 (o : Except JsError HttpResponse) (h : (catchWrap o).status = 200) :
    ∃ resp, o = .ok resp ∧ resp.status = 200 := by
  cases o with
  | ok resp => exact ⟨resp, rfl, h⟩
  | error e => simp [catchWrap] at h; split at h <;> simp_all

theorem Json.get_error_name (v : Json) (k : String) (e : JsError)
    (h : v.get k = .error e) : e.name = "TypeError" := by
  cases v with
  | null => exact (Except.error.inj h) ▸ rfl
  | undefined => exact (Except.error.inj h) ▸ rfl
  | bool b => simp [Json.get] at h
  | num n => simp [Json.get] at h
  | str s => simp [Json.get] at h
  | arr xs => simp [Json.get] at h
  | obj kvs => simp [Json.get] at h

theorem mapMessagesList_error_name (l : List Json) (e : JsError)
    (h : mapMessagesList l = .error e) : e.name = "TypeError" := by
  induction l with
  | nil => simp [mapMessagesList] at h
  | cons m rest ih =>
    simp only [mapMessagesList] at h
    cases hr : m.get "role" with
    | error e' =>
      simp only [hr, errBind, Except.error.injEq] at h
      subst h
      exact Json.get_error_name _ _ _ hr
    | ok r =>
      simp only [hr, okBind] at h
      cases hc : m.get "content" with
      | error e' =>
        simp only [hc, errBind, Except.error.injEq] at h
        subst h
        exact Json.get_error_name _ _ _ hc
      | ok c =>
        simp only [hc, okBind] at h
        cases ht : mapMessagesList rest with
        | error e' =>
          simp only [ht, errBind, Except.error.injEq] at h
          subst h
          exact ih ht
        | ok tail => simp [ht, okBind, pureOk] at h

theorem jsMapMessages_error_name (v : Json) (e : JsError)
    (h : jsMapMessages v = .error e) : e.name = "TypeError" := by
  cases v with
  | arr xs => exact mapMessagesList_error_name _ _ h
  | null => exact (Except.error.inj h) ▸ rfl
  | undefined => exact (Except.error.inj h) ▸ rfl
  | bool b => exact (Except.error.inj h) ▸ rfl
  | num n => exact (Except.error.inj h) ▸ rfl
  | str s => exact (Except.error.inj h) ▸ rfl
  | obj kvs => exact (Except.error.inj h) ▸ rfl

theorem successResult_nonstring_model (model data : Json)
    (hmodel : ∀ s, model ≠ Json.str s)
    (hdata : data.isNullish = false) :
    successResult model data = .error (typeError "model.toLowerCase is not a function") := by
  simp only [successResult, extractText_eq_spec data hdata, okBind]
  have hl : jsToLowerCase model = .error (typeError "model.toLowerCase is not a function") := by
    cases model <;> first | rfl | exact absurd rfl (hmodel _)
  simp [hl, errBind]

theorem successResult_null_body (model : Json) :
    successResult model .null
      = .error (typeError "Cannot read properties of null (reading message)") := rfl

/-! ## Claim theorems -/

/-- C1: the claim says a successful result whose requested model matches no
retained descriptor and whose extracted model list is non-empty carries an
`availableModels` field with at most the first 10 names. On the code this
field is never attached: at a 2xx body listing `llama3` while the
requested model is `phi` (no exact match, non-empty list of length 1), the
returned 200 body is exactly `{ text, raw }`, with no `availableModels`
key — the source computes the list but assigns it to the fetch `Response`
object (`response.availableModels = …`), a dead store, never to the
returned body. -/
theorem C1_availableModels_never_in_result :
    (POST none (.ok (.obj [("messages", .arr []), ("model", .str "phi")]))
        (.respond 200 "OK" ""
          (.ok (.obj [("models", .arr [.obj [("name", .str "llama3")]])])))).response
      = ⟨200, .obj [("text", .str "No response from Ollama"),
                    ("raw", .obj [("models", .arr [.obj [("name", .str "llama3")]])])]⟩ ∧
    (POST none (.ok (.obj [("messages", .arr []), ("model", .str "phi")]))
        (.respond 200 "OK" ""
          (.ok (.obj [("models", .arr [.obj [("name", .str "llama3")]])])))).response.body.getProp
        "availableModels" = .undefined ∧
    (modelListOf (.obj [("models", .arr [.obj [("name", .str "llama3")]])])).length = 1 ∧
    (modelListOf (.obj [("models", .arr [.obj [("name", .str "llama3")]])])).find?
        (descriptorMatches "phi") = none :=
  ⟨by rfl, by rfl, rfl, by rfl⟩

/-- C2 counterexample: a 2xx body `{"message":{"content":""}}` has a
nested message object with a content **string**, yet `text` is the fixed
placeholder, not that string — the source tests truthiness and the empty
string is falsy, refuting the claim as stated. -/
theorem C2_empty_content_string_not_used :
    (Json.getProp (Json.getProp (.obj [("message", .obj [("content", .str "")])]) "message")
        "content" = .str "") ∧
    (POST none (.ok (.obj [("messages", .arr []), ("model", .str "llama3")]))
        (.respond 200 "OK" "" (.ok (.obj [("message", .obj [("content", .str "")])])))).response.status
      = 200 ∧
    (POST none (.ok (.obj [("messages", .arr []), ("model", .str "llama3")]))
        (.respond 200 "OK" "" (.ok (.obj [("message", .obj [("content", .str "")])])))).response.body.getProp
        "text" = .str "No response from Ollama" ∧
    ("No response from Ollama" ≠ ("" : String)) :=
  ⟨rfl, by rfl, by rfl, by decide⟩

/-- C2 (amended): for every parseable non-null 2xx body of a request that
reaches the fetch with a string model and whose extracted model list has
no nullish entry, the result is a success (HTTP 200) and its `text` field
follows the truthiness-based priority of `specText`: a truthy nested
`message.content` wins and is returned exactly (no trimming or mutation),
else a truthy flat `response`, else the fixed placeholder — the
placeholder path being a success, not an error. -/
theorem C2_text_extraction_priority (env : Option String) (body data : Json)
    (oms : List Json) (st : Nat) (stx btx : String) (s : String)
    (hbody : body.isNullish = false)
    (hmsgs : jsMapMessages (body.getProp "messages") = .ok oms)
    (hmodel : body.getProp "model" = .str s)
    (hst : statusOk st = true)
    (hdata : data.isNullish = false)
    (hlist : ∀ m ∈ modelListOf data, m.isNullish = false) :
    (POST env (.ok body) (.respond st stx btx (.ok data))).response.status = 200 ∧
    (POST env (.ok body) (.respond st stx btx (.ok data))).response.body.getProp "text"
      = specText data := by
  rw [POST_reached env body _ oms hbody hmsgs]
  simp only [fetchOutcome, hst, not_true, if_neg, Bool.not_eq_true, if_false]
  rw [successResult_eq _ data s hmodel hdata hlist]
  exact ⟨rfl, rfl⟩

/-- C2 witness: backend body `{"message":{"content":"hello there"}}`
yields HTTP 200 with `text = "hello there"`. -/
theorem C2_text_extraction_priority_witness :
    ((POST none (.ok (.obj [("messages", .arr []), ("model", .str "llama3")]))
        (.respond 200 "OK" ""
          (.ok (.obj [("message", .obj [("content", .str "hello there")])])))).response.status
      = 200 ∧
    (POST none (.ok (.obj [("messages", .arr []), ("model", .str "llama3")]))
        (.respond 200 "OK" ""
          (.ok (.obj [("message", .obj [("content", .str "hello there")])])))).response.body.getProp
        "text" = specText (.obj [("message", .obj [("content", .str "hello there")])])) ∧
    specText (.obj [("message", .obj [("content", .str "hello there")])]) = .str "hello there" :=
  ⟨C2_text_extraction_priority none (.obj [("messages", .arr []), ("model", .str "llama3")])
      (.obj [("message", .obj [("content", .str "hello there")])]) [] 200 "OK" "" "llama3"
      rfl rfl rfl rfl rfl (fun m hm => absurd hm (List.not_mem_nil m)),
    rfl⟩

/-- C3: for every request that reaches the outbound call and whose backend
responds with a non-2xx HTTP status, the handler returns HTTP 502 —
regardless of the backend's own status code — with a body whose `details`
field equals the backend's raw response body text and whose `code` field
equals the backend's status code. -/
theorem C3_backend_non2xx_always_502 (env : Option String) (body : Json) (oms : List Json)
    (st : Nat) (stx btx : String) (bodyJson : Except JsError Json)
    (hbody : body.isNullish = false)
    (hmsgs : jsMapMessages (body.getProp "messages") = .ok oms)
    (hst : statusOk st = false) :
    (POST env (.ok body) (.respond st stx btx bodyJson)).response
        = ⟨502, backendErrorBody st stx btx⟩ ∧
    (backendErrorBody st stx btx).getProp "details" = .str btx ∧
    (backendErrorBody st stx btx).getProp "code" = .num st ∧
    (backendErrorBody st stx btx).getProp "provider" = .str "ollama" := by
  rw [POST_reached env body _ oms hbody hmsgs]
  exact ⟨by simp [fetchOutcome, hst, catchWrap], rfl, rfl, rfl⟩

/-- C3 witness: a backend 404 with raw body text `"model not found"` is
reported as 502 with that text under `details` and 404 under `code`. -/
theorem C3_backend_non2xx_always_502_witness :
    (POST none (.ok (.obj [("messages", .arr []), ("model", .str "llama3")]))
        (.respond 404 "Not Found" "model not found" (.ok (.obj [])))).response
      = ⟨502, backendErrorBody 404 "Not Found" "model not found"⟩ ∧
    (backendErrorBody 404 "Not Found" "model not found").getProp "details"
      = .str "model not found" ∧
    (backendErrorBody 404 "Not Found" "model not found").getProp "code" = .num 404 ∧
    (backendErrorBody 404 "Not Found" "model not found").getProp "provider" = .str "ollama" :=
  C3_backend_non2xx_always_502 none (.obj [("messages", .arr []), ("model", .str "llama3")])
    [] 404 "Not Found" "model not found" (.ok (.obj [])) rfl rfl rfl

/-- C4: for every request that reaches the outbound call, if the fetch is
aborted by the deadline (it rejects with an `AbortError`), the handler
returns HTTP 504 with the fixed message `'Ollama request timed out'` and
provider `'ollama'`; it does not return 200, its status is distinct from
the transport-failure (500) and backend-rejected (502) statuses, and the
armed deadline is the 45000 ms (45-second) constant. -/
theorem C4_timeout_reported_504 (env : Option String) (body : Json) (oms : List Json)
    (e : JsError)
    (hbody : body.isNullish = false)
    (hmsgs : jsMapMessages (body.getProp "messages") = .ok oms)
    (hname : e.name = "AbortError") :
    (POST env (.ok body) (.reject e)).response = ⟨504, timeoutBody⟩ ∧
    timeoutBody.getProp "error" = .str "Ollama request timed out" ∧
    timeoutBody.getProp "provider" = .str "ollama" ∧
    (POST env (.ok body) (.reject e)).response.status ≠ 200 ∧
    (POST env (.ok body) (.reject e)).response.status ≠ 500 ∧
    (POST env (.ok body) (.reject e)).response.status ≠ 502 ∧
    (POST env (.ok body) (.reject e)).armedDelayMs = some ollamaTimeoutMs ∧
    ollamaTimeoutMs = 45000 := by
  rw [POST_reached env body _ oms hbody hmsgs]
  refine ⟨?_, rfl, rfl, ?_, ?_, ?_, rfl, rfl⟩ <;>
    simp [fetchOutcome, catchWrap, hname]

/-- C4 witness: a concrete aborted fetch yields the fixed 504 outcome. -/
theorem C4_timeout_reported_504_witness :
    (POST none (.ok (.obj [("messages", .arr []), ("model", .str "llama3")]))
        (.reject abortError)).response = ⟨504, timeoutBody⟩ ∧
    timeoutBody.getProp "error" = .str "Ollama request timed out" ∧
    timeoutBody.getProp "provider" = .str "ollama" ∧
    (POST none (.ok (.obj [("messages", .arr []), ("model", .str "llama3")]))
        (.reject abortError)).response.status ≠ 200 ∧
    (POST none (.ok (.obj [("messages", .arr []), ("model", .str "llama3")]))
        (.reject abortError)).response.status ≠ 500 ∧
    (POST none (.ok (.obj [("messages", .arr []), ("model", .str "llama3")]))
        (.reject abortError)).response.status ≠ 502 ∧
    (POST none (.ok (.obj [("messages", .arr []), ("model", .str "llama3")]))
        (.reject abortError)).armedDelayMs = some ollamaTimeoutMs ∧
    ollamaTimeoutMs = 45000 :=
  C4_timeout_reported_504 none (.obj [("messages", .arr []), ("model", .str "llama3")])
    [] abortError rfl rfl rfl

/-- C5: for every request for which the handler returns a successful (200)
result, the `raw` field of the returned body is the backend's parsed body,
unmodified, whatever shape that body has. -/
theorem C5_raw_roundtrip (env : Option String) (reqBody : Except JsError Json)
    (st : Nat) (stx btx : String) (data : Json)
    (h200 : (POST env reqBody (.respond st stx btx (.ok data))).response.status = 200) :
    (POST env reqBody (.respond st stx btx (.ok data))).response.body.getProp "raw" = data := by
  rw [POST_response_eq] at h200 ⊢
  obtain ⟨resp, hok, h200r⟩ := catchWrap_200 _ h200
  rw [hok]
  show resp.body.getProp "raw" = data
  rcases reqBody with e | body
  · simp [tryBlock] at hok
  · by_cases hb : body.isNullish
    · simp [tryBlock, hb] at hok
    · rw [Bool.not_eq_true] at hb
      cases hm : jsMapMessages (body.getProp "messages") with
      | error e => simp [tryBlock, hb, hm] at hok
      | ok oms =>
        rw [tryBlock_reached env body _ oms hb hm] at hok
        simp only [fetchOutcome] at hok
        by_cases hst : statusOk st
        · simp only [hst, not_true, if_neg, Bool.not_eq_true] at hok
          obtain ⟨text, rfl⟩ := successResult_shape _ _ _ hok
          rfl
        · simp only [hst] at hok
          simp at hok
          rw [hok.symm] at h200r
          simp at h200r

/-- C5 witness: a successful relay of the body `{"response":"hi!"}` returns
it unmodified under `raw`. -/
theorem C5_raw_roundtrip_witness :
    (POST none (.ok (.obj [("messages", .arr []), ("model", .str "llama3")]))
        (.respond 200 "OK" ""
          (.ok (.obj [("response", .str "hi!")])))).response.body.getProp "raw"
      = .obj [("response", .str "hi!")] :=
  C5_raw_roundtrip none (.ok (.obj [("messages", .arr []), ("model", .str "llama3")]))
    200 "OK" "" (.obj [("response", .str "hi!")]) (by rfl)

/-- C6 counterexample: a `baseUrl` that is present but an empty string is
falsy, so `baseUrl || env || default` skips it: with `baseUrl = ""` and the
environment default set, the outbound call targets the environment value,
not the present `baseUrl` — refuting the claim's "baseUrl if present". -/
theorem C6_present_empty_baseUrl_not_used :
    ((Json.obj [("messages", .arr []), ("model", .str "llama3"), ("baseUrl", .str "")]).getProp
        "baseUrl" = .str "") ∧
    (POST (some "http://envhost:1234")
        (.ok (.obj [("messages", .arr []), ("model", .str "llama3"), ("baseUrl", .str "")]))
        (.respond 200 "OK" "" (.ok (.obj [])))).outbound.map OutboundReq.url
      = some "http://envhost:1234/api/chat" ∧
    ("http://envhost:1234/api/chat" ≠ "" ++ "/api/chat") :=
  ⟨rfl, by rfl, by decide⟩

/-- C6 (amended): for every request that reaches the outbound call, the
resolved endpoint is `request.baseUrl` if present and truthy (in
particular a non-empty string), else the environment default if set and
non-empty, else the hardcoded `http://localhost:11434`, used verbatim as
the prefix of `/api/chat`; in particular with the `baseUrl` falsy (e.g.
absent) and the environment default unset or empty, the outbound call
targets `http://localhost:11434/api/chat`. The resolution priority never
swaps. -/
theorem C6_endpoint_resolution (env : Option String) (body : Json) (oms : List Json)
    (backend : Backend)
    (hbody : body.isNullish = false)
    (hmsgs : jsMapMessages (body.getProp "messages") = .ok oms) :
    ((body.getProp "baseUrl").truthy = true →
      (POST env (.ok body) backend).outbound.map OutboundReq.url
        = some ((body.getProp "baseUrl").jsString ++ "/api/chat")) ∧
    (∀ s : String, (body.getProp "baseUrl").truthy = false → env = some s → s ≠ "" →
      (POST env (.ok body) backend).outbound.map OutboundReq.url = some (s ++ "/api/chat")) ∧
    ((body.getProp "baseUrl").truthy = false → (env = none ∨ env = some "") →
      (POST env (.ok body) backend).outbound.map OutboundReq.url
        = some (defaultOllamaUrl ++ "/api/chat")) ∧
    defaultOllamaUrl = "http://localhost:11434" := by
  rw [POST_reached env body backend oms hbody hmsgs]
  refine ⟨?_, ?_, ?_, rfl⟩
  · intro ht
    simp [resolveOllamaUrl, ht]
  · intro s hf henv hs
    subst henv
    simp [resolveOllamaUrl, hf, hs, Json.jsString]
  · intro hf henv
    rcases henv with rfl | rfl <;> simp [resolveOllamaUrl, hf, Json.jsString]

/-- C6 witness: the spec's concrete scenario — messages
`[{role:"user",content:"hi"}]`, model `llama3`, `baseUrl` absent,
environment default unset — targets `http://localhost:11434/api/chat`. -/
theorem C6_endpoint_resolution_witness :
    (POST none
        (.ok (.obj [("messages", .arr [.obj [("role", .str "user"), ("content", .str "hi")]]),
                    ("model", .str "llama3")]))
        (.respond 200 "OK" "" (.ok (.obj [])))).outbound.map OutboundReq.url
      = some "http://localhost:11434/api/chat" :=
  (C6_endpoint_resolution none
      (.obj [("messages", .arr [.obj [("role", .str "user"), ("content", .str "hi")]]),
             ("model", .str "llama3")])
      [.obj [("role", .str "user"), ("content", .str "hi")]]
      (.respond 200 "OK" "" (.ok (.obj []))) rfl rfl).2.2.1 rfl (Or.inl rfl)

/-- C7: for every request whose `messages` field is an array and that
issues an outbound call, the outbound body has `stream = false` (the relay
never requests streamed output) and its `messages` sequence is the inbound
sequence forwarded element by element, in order, each element reduced to
exactly its `role` and `content` property values — whatever they are: no
role validation, no content sanitization. -/
theorem C7_messages_forwarded_unchanged (env : Option String) (body : Json)
    (backend : Backend) (msgs : List Json) (o : OutboundReq)
    (hbody : body.isNullish = false)
    (hmsgs : body.getProp "messages" = .arr msgs)
    (hout : (POST env (.ok body) backend).outbound = some o) :
    o.stream = false ∧
    o.messages = msgs.map (fun m =>
      Json.obj [("role", m.getProp "role"), ("content", m.getProp "content")]) := by
  rw [POST_outbound_eq] at hout
  cases hm : jsMapMessages (body.getProp "messages") with
  | error e => simp [tryBlock, hbody, hm] at hout
  | ok oms =>
    rw [tryBlock_reached env body backend oms hbody hm] at hout
    simp only [Option.some.injEq] at hout
    rw [hmsgs] at hm
    rw [← hout]
    exact ⟨rfl, mapMessagesList_shape msgs oms hm⟩

/-- C7 witness: a concrete one-message request is forwarded with
`stream = false` and the message intact. -/
theorem C7_messages_forwarded_unchanged_witness :
    (⟨"http://localhost:11434/api/chat", .str "llama3",
        [.obj [("role", .str "user"), ("content", .str "hi")]], false⟩ : OutboundReq).stream
      = false ∧
    ([Json.obj [("role", .str "user"), ("content", .str "hi")]] : List Json)
      = [Json.obj [("role", .str "user"), ("content", .str "hi")]].map (fun m =>
          Json.obj [("role", m.getProp "role"), ("content", m.getProp "content")]) := by
  have h := C7_messages_forwarded_unchanged none
    (.obj [("messages", .arr [.obj [("role", .str "user"), ("content", .str "hi")]]),
           ("model", .str "llama3")])
    (.respond 200 "OK" "" (.ok (.obj [])))
    [.obj [("role", .str "user"), ("content", .str "hi")]]
    ⟨"http://localhost:11434/api/chat", .str "llama3",
        [.obj [("role", .str "user"), ("content", .str "hi")]], false⟩
    rfl rfl (by rfl)
  exact ⟨h.1, h.2⟩

/-- C8 counterexample: a transport failure whose error has an empty
message is reported with the fixed string `'Unknown error'` in the `error`
field, not the underlying error's message — the source applies
`err?.message || 'Unknown error'`, refuting the claim as stated. -/
theorem C8_empty_error_message_counterexample :
    (POST none (.ok (.obj [("messages", .arr []), ("model", .str "llama3")]))
        (.reject ⟨"Error", ""⟩)).response
      = ⟨500, transportErrorBody "Unknown error"⟩ ∧
    (transportErrorBody "Unknown error").getProp "error" = .str "Unknown error" ∧
    ("Unknown error" ≠ ("" : String)) :=
  ⟨by rfl, rfl, by decide⟩

/-- C8 (amended): for every request, any failure other than a backend
non-2xx response or a deadline abort results in HTTP 500 with provider
`'ollama'` and, in the body's `error` field, the underlying error's
message when that message is non-empty, else the fixed string
`'Unknown error'`. The first conjunct says it for **every** thrown error
whose name is not `AbortError`, whatever its throw site; the remaining
conjuncts instantiate the families the claim enumerates — a rejected
fetch (connection refused, DNS failure), an unparseable 2xx body, and the
post-parse throws of a 2xx body equal to JSON `null` and of a `null`
model-list entry, each reported with that error's own message. -/
theorem C8_other_failures_500 (env : Option String) (body : Json) (oms : List Json)
    (hbody : body.isNullish = false)
    (hmsgs : jsMapMessages (body.getProp "messages") = .ok oms) :
    (∀ (reqBody : Except JsError Json) (backend : Backend) (e : JsError),
      (tryBlock env reqBody backend).1 = .error e → e.name ≠ "AbortError" →
      (POST env reqBody backend).response
        = ⟨500, transportErrorBody (if e.message = "" then "Unknown error" else e.message)⟩) ∧
    (∀ e : JsError, e.name ≠ "AbortError" →
      (POST env (.ok body) (.reject e)).response
        = ⟨500, transportErrorBody (if e.message = "" then "Unknown error" else e.message)⟩) ∧
    (∀ (st : Nat) (stx btx : String) (e : JsError), statusOk st = true → e.name ≠ "AbortError" →
      (POST env (.ok body) (.respond st stx btx (.error e))).response
        = ⟨500, transportErrorBody (if e.message = "" then "Unknown error" else e.message)⟩) ∧
    (∀ (st : Nat) (stx btx : String), statusOk st = true →
      (POST env (.ok body) (.respond st stx btx (.ok .null))).response
        = ⟨500, transportErrorBody "Cannot read properties of null (reading message)"⟩) ∧
    ((POST none (.ok (.obj [("messages", .arr []), ("model", .str "phi")]))
        (.respond 200 "OK" "" (.ok (.obj [("models", .arr [.null])])))).response
      = ⟨500, transportErrorBody "Cannot read properties of null (reading name)"⟩) ∧
    (∀ m : String, (transportErrorBody m).getProp "provider" = .str "ollama" ∧
      (transportErrorBody m).getProp "error" = .str m) := by
  refine ⟨?_, ?_, ?_, ?_, by rfl, fun m => ⟨rfl, rfl⟩⟩
  · intro reqBody backend e he hn
    rw [POST_response_eq, he]
    simp [catchWrap, hn]
  · intro e he
    rw [POST_reached env body _ oms hbody hmsgs]
    simp [fetchOutcome, catchWrap, he]
  · intro st stx btx e hst he
    rw [POST_reached env body _ oms hbody hmsgs]
    simp [fetchOutcome, catchWrap, hst, he]
  · intro st stx btx hst
    rw [POST_reached env body _ oms hbody hmsgs]
    simp [fetchOutcome, hst, successResult_null_body, catchWrap, typeError]

/-- C8 witness: a fetch rejected with `TypeError: fetch failed` (the
connection-refused shape) is reported as 500 with that message, via the
catch-all conjunct at a concrete thrown error. -/
theorem C8_other_failures_500_witness :
    (POST none (.ok (.obj [("messages", .arr []), ("model", .str "llama3")]))
        (.reject ⟨"TypeError", "fetch failed"⟩)).response
      = ⟨500, transportErrorBody "fetch failed"⟩ := by
  have h := (C8_other_failures_500 none (.obj [("messages", .arr []), ("model", .str "llama3")])
      [] rfl rfl).1
    (.ok (.obj [("messages", .arr []), ("model", .str "llama3")]))
    (.reject ⟨"TypeError", "fetch failed"⟩)
    ⟨"TypeError", "fetch failed"⟩ (by rfl) (by decide)
  simpa using h

/-- C9: on every exit path of the handler — success, backend error,
timeout, or any other failure — the cancellation timer, if armed, has been
cleared by the `finally` block before the handler returns; it is never
left armed after the request completes. -/
theorem C9_timer_always_cleared (env : Option String) (reqBody : Except JsError Json)
    (backend : Backend) :
    (POST env reqBody backend).timerArmedAtEnd = false := by
  unfold POST
  rcases h : tryBlock env reqBody backend with ⟨o, ob, ts⟩
  cases ts <;> simp [h]

/-- C10 counterexample: a request with a non-string model does **not**
always reach HTTP 500: when the backend answers non-2xx (here 404), the
502 backend-error outcome wins, because the model is only lowercased after
the backend call succeeds — refuting the claim's universal "returns HTTP
500". -/
theorem C10_nonstring_model_not_always_500 :
    ((Json.obj [("messages", .arr []), ("model", .num 42)]).getProp "model" = .num 42) ∧
    (POST none (.ok (.obj [("messages", .arr []), ("model", .num 42)]))
        (.respond 404 "Not Found" "no model" (.ok (.obj [])))).response.status = 502 ∧
    ((502 : Nat) ≠ 500) :=
  ⟨rfl, by rfl, by decide⟩

/-- C10 (amended): a request whose body is not valid JSON, or whose
`messages` field is not an array, yields HTTP 500 with the thrown error's
message (for a non-empty message) and no outbound call; a request with a
non-string model yields HTTP 500 — indistinguishable from a transport
failure — whenever the backend call returns 2xx with a parseable non-null
body, because the model is lowercased only after the backend call; when
the backend fails first, that outcome (502/504) takes precedence. -/
theorem C10_invalid_request_500 (env : Option String) :
    (∀ (e : JsError) (backend : Backend), e.name ≠ "AbortError" → e.message ≠ "" →
      (POST env (.error e) backend).response = ⟨500, transportErrorBody e.message⟩ ∧
      (POST env (.error e) backend).outbound = none) ∧
    (∀ (body : Json) (backend : Backend) (e : JsError), body.isNullish = false →
      jsMapMessages (body.getProp "messages") = .error e → e.message ≠ "" →
      (POST env (.ok body) backend).response = ⟨500, transportErrorBody e.message⟩ ∧
      (POST env (.ok body) backend).outbound = none) ∧
    (∀ (body : Json) (oms : List Json) (st : Nat) (stx btx : String) (data : Json),
      body.isNullish = false →
      jsMapMessages (body.getProp "messages") = .ok oms →
      (∀ s, body.getProp "model" ≠ Json.str s) →
      statusOk st = true → data.isNullish = false →
      (POST env (.ok body) (.respond st stx btx (.ok data))).response
        = ⟨500, transportErrorBody "model.toLowerCase is not a function"⟩) := by
  refine ⟨?_, ?_, ?_⟩
  · intro e backend hn hm
    exact ⟨by simp [POST, tryBlock, catchWrap, hn, hm], by simp [POST, tryBlock]⟩
  · intro body backend e hb hm hmsg
    have hn := jsMapMessages_error_name _ _ hm
    constructor
    · rw [POST_response_eq]
      simp [tryBlock, hb, hm, catchWrap, hn, hmsg]
    · rw [POST_outbound_eq]
      simp [tryBlock, hb, hm]
  · intro body oms st stx btx data hb hm hmodel hst hd
    rw [POST_reached env body _ oms hb hm]
    simp [fetchOutcome, hst, successResult_nonstring_model (body.getProp "model") data hmodel hd,
      catchWrap, typeError]

/-- C10 witness: an unparseable inbound body is reported as 500 carrying
the JSON parse error's message, with no outbound call made. -/
theorem C10_invalid_request_500_witness :
    (POST none (.error ⟨"SyntaxError", "Unexpected end of JSON input"⟩)
        (.reject abortError)).response
      = ⟨500, transportErrorBody "Unexpected end of JSON input"⟩ :=
  ((C10_invalid_request_500 none).1 ⟨"SyntaxError", "Unexpected end of JSON input"⟩
    (.reject abortError) (by decide) (by decide)).1
